import Mathlib

/-!
Verification of the go-apiclient request pipeline and multiplexer.

This file gives a shallow embedding, in Lean, of the parts of the
go-apiclient repository that the specification claims talk about:

* `src/v1/error.go` — success predicate, status classification and the
  sentinel causes (`checkErr`, `isSuccess`, the `Err…` sentinels);
* `src/v1/api.go` — the `Client` structure, the derived-client helpers
  `WithBase` / `WithAuthorizer`, the default-header merge, and the
  retry loop of `RoundTrip` (rate-limit forced retries and
  status-driven backoff retries sharing one attempt counter);
* `src/v1/debug.go` — `sanitizeHeaders` and the sensitive-header
  redaction, together with the raw header dump that `RoundTrip`
  actually performs;
* `src/v1/multiplex/multiplex.go` — `New`, `Collect` and the per-unit
  `block` error handling.

External capabilities (the HTTP transport, the rate limiter, the
dispatcher, SHA-256 from the Go standard library) are modelled as
abstract inputs: the transport and limiter behaviour of each attempt is
an explicit environment value, and the hash is a function parameter.
Durations are integer nanoseconds, as in Go's `time.Duration`.
-/

namespace ApiClient

/-! ## Headers

Go's `http.Header` is `map[string][]string`.  We model it as an
association list paired with Go-map lookup/assignment semantics; a
concrete Go iteration order corresponds to the list order.
-/

/-- Model of `http.Header`: keys with their value lists. -/
abbrev Header := List (String × List String)

/-- Valid HTTP token characters, per Go's `validHeaderFieldByte`
(`net/textproto`): ASCII letters, digits and the specials of RFC 7230.
The apostrophe and the backquote are written by code point. -/
def isTokenChar (c : Char) : Bool :=
  c.isAlphanum || c = '!' || c = '#' || c = '$' || c = '%' || c = '&' ||
  c.toNat = 39 || c = '*' || c = '+' || c = '-' || c = '.' || c = '^' ||
  c = '_' || c.toNat = 96 || c = '|' || c = '~'

/-- Case-folding pass of Go's `textproto.CanonicalMIMEHeaderKey`: the
first character and every character after a hyphen are upper-cased, all
others lower-cased. -/
def canonChars : Bool → List Char → List Char
  | _, [] => []
  | upper, c :: t =>
    let c' := if upper then c.toUpper else c.toLower
    c' :: canonChars (c' = '-') t

/-- Model of Go's `http.CanonicalHeaderKey`: if the key contains any
invalid token character it is returned unchanged, otherwise it is
canonicalized with upper case at the start and after hyphens. -/
def canonicalHeaderKey (s : String) : String :=
  if s.toList.all isTokenChar then String.mk (canonChars true s.toList) else s

/-- Go map read `h[n]`: the value list bound to the exact key `n`. -/
def headerLookup (h : Header) (n : String) : Option (List String) :=
  match h with
  | [] => none
  | (k, v) :: t => if k = n then some v else headerLookup t n

/-- Go two-valued map read `_, set := h[n]`. -/
def headerHas (h : Header) (n : String) : Bool :=
  (headerLookup h n).isSome

/-- Go map assignment `h[n] = v`: replace the binding of `n`, or append
a new binding. -/
def headerSet (h : Header) (n : String) (v : List String) : Header :=
  match h with
  | [] => [(n, v)]
  | (k, w) :: t => if k = n then (n, v) :: t else (k, w) :: headerSet t n v

/-- Go's `http.Header.Add`: canonicalize the key and append one value to
its list. -/
def headerAdd (h : Header) (k : String) (v : String) : Header :=
  let n := canonicalHeaderKey k
  match h with
  | [] => [(n, [v])]
  | (k', w) :: t =>
    if k' = n then (k', w ++ [v]) :: t else (k', w) :: headerAdd t k v

/-- Go's `http.Header.Get`: canonicalize the key and return the first
value, or the empty string. -/
def headerGet (h : Header) (k : String) : String :=
  match headerLookup h (canonicalHeaderKey k) with
  | some (v :: _) => v
  | _ => ""

/-- Serialization performed by Go's `http.Header.Write`: one
`key: value` line per value.  (Go writes keys in sorted order and ends
lines with CRLF; neither detail affects redaction.) -/
def headerWriteLines (h : Header) : List String :=
  h.flatMap fun kv => kv.2.map fun v => kv.1 ++ ": " ++ v

/-! ## Errors and classification (`src/v1/error.go`) -/

/-- A captured response entity: content type and raw body bytes
(`Entity` in `content.go`, as used by `SetEntityFromResponse`). -/
structure Entity where
  contentType : String
  data : String
deriving DecidableEq

/-- A transport response as far as the pipeline inspects it:
`http.Response.StatusCode`, `.Header` and the readable body. -/
structure Response where
  statusCode : Nat
  header : Header
  body : String
deriving DecidableEq

/-- The sentinel causes of `error.go` that `checkErr` wraps for common
status codes. -/
inductive Sentinel where
  | errBadRequest
  | errUnauthorized
  | errForbidden
  | errNotFound
  | errUnprocessableEntity
  | errInternalServerError
deriving DecidableEq

/-- The `*api.Error` value built by `checkErr`: request id, status,
captured entity and the optional sentinel cause.  The human-readable
message and method/URL strings are diagnostic text not examined by any
claim and are omitted. -/
structure ApiError where
  reqId : Int
  status : Nat
  entity : Option Entity
  cause : Option Sentinel
deriving DecidableEq

/-- Source: `isSuccess` in `error.go` — `status >= 200 && status < 300`. -/
def isSuccess (status : Nat) : Bool :=
  200 ≤ status && status < 300

/-- The `switch rsp.StatusCode` of `checkErr`, mapping the six common
statuses to their sentinel causes. -/
def sentinelFor (status : Nat) : Option Sentinel :=
  if status = 400 then some .errBadRequest
  else if status = 401 then some .errUnauthorized
  else if status = 403 then some .errForbidden
  else if status = 404 then some .errNotFound
  else if status = 422 then some .errUnprocessableEntity
  else if status = 500 then some .errInternalServerError
  else none

/-- Source: `checkErr` in `error.go`.  A non-2xx response becomes an
`*Error` with the status, the body snapshot as entity
(`SetEntityFromResponse`: body bytes plus the `Content-Type` header)
and the sentinel cause for its status; a 2xx response yields no error. -/
def checkErr (reqid : Int) (rsp : Response) : Option ApiError :=
  if isSuccess rsp.statusCode then none
  else
    some
      { reqId := reqid
        status := rsp.statusCode
        entity := some ⟨headerGet rsp.header "Content-Type", rsp.body⟩
        cause := sentinelFor rsp.statusCode }

/-- Model of `errors.Is(err, sentinel)` on an `*api.Error`: `Unwrap`
returns the cause, so matching succeeds exactly when the cause is the
sentinel. -/
def apiErrorIs (e : ApiError) (s : Sentinel) : Bool :=
  e.cause = some s

/-! ## The Client (`src/v1/api.go`) -/

/-- Source: `const maxRetries = 3` in `api.go`. -/
def maxRetries : Nat := 3

/-- Source: `const backoffDefault = time.Minute * 3` in `api.go`,
in nanoseconds. -/
def backoffDefault : Int := 180 * 1000000000

/-- The debug configuration of a client (`Debug` in `config.go`),
reduced to its two flags; the URL-matching filter does not affect any
claim. -/
structure DebugCfg where
  debug : Bool
  verbose : Bool
deriving DecidableEq

/-- The `api.Client` structure (`api.go` lines 50–60).  External
capabilities are opaque handles: `httpClient` stands for the embedded
`*http.Client`, `auth` for the `Authorizer` and `limiter` for the
`ratelimit.Limiter` (`none` = the Go nil).  `retry` is the
`map[int]struct{}` of retryable statuses, with `none` for a nil map,
`backoff` the `RetryDelay` in nanoseconds, `base` the optional base URL
and `header` the default header set. -/
structure Client where
  httpClient : Nat
  auth : Option Nat
  limiter : Option Nat
  retry : Option (List Nat)
  backoff : Int
  base : Option String
  header : Header
  dctype : String
  debug : DebugCfg
deriving DecidableEq

/-- Source: `Client.WithBase` (`api.go` lines 125–135).  The Go
composite literal names `Client`, `auth`, `limiter`, `base`, `header`,
`dctype` and `debug` — and omits `retry` and `backoff`, which therefore
take their zero values (nil map, zero duration). -/
def withBase (c : Client) (b : Option String) : Client :=
  { httpClient := c.httpClient
    auth := c.auth
    limiter := c.limiter
    retry := none
    backoff := 0
    base := b
    header := c.header
    dctype := c.dctype
    debug := c.debug }

/-- Source: `Client.WithAuthorizer` (`api.go` lines 141–151).  As with
`WithBase`, `retry` and `backoff` are omitted from the composite
literal and zeroed. -/
def withAuthorizer (c : Client) (a : Option Nat) : Client :=
  { httpClient := c.httpClient
    auth := a
    limiter := c.limiter
    retry := none
    backoff := 0
    base := c.base
    header := c.header
    dctype := c.dctype
    debug := c.debug }

/-- One iteration of the default-header merge loop of `RoundTrip`
(`api.go` lines 290–295): canonicalize the client header key and assign
its values only when the request does not already set that canonical
name (`don't overrwrite explicitly set headers`). -/
def mergeStep (acc : Header) (kv : String × List String) : Header :=
  let n := canonicalHeaderKey kv.1
  if headerHas acc n then acc else headerSet acc n kv.2

/-- Source: the default-header merge of `RoundTrip` (`api.go` lines
290–295), folded over the client's header entries. -/
def mergeDefaultHeaders (ch : Header) (req : Header) : Header :=
  ch.foldl mergeStep req

/-! ## The RoundTrip retry loop (`api.go` lines 270–439)

The transport and the rate limiter are external capabilities; an
`Env` records what they would do on each attempt, and whether the
caller's context is done at each suspension point.  `RoundTrip` itself
is then a pure function of the client and the environment.
-/

/-- What `limiter.Update` reports after one transport attempt: no
error, a `ratelimit.RetryError` carrying a retry-after instant, or some
other (non-retry) limiter error. -/
inductive LimiterUpdate where
  | noUpdate
  | retrySignal (after : Int)
  | otherErr
deriving DecidableEq

/-- One transport attempt as the pipeline observes it: the response (or
`none` for a transport error), the limiter update for that response,
and whether the caller's context is done during the retry-after wait or
the backoff wait that may follow this attempt. -/
structure Attempt where
  transport : Option Response
  update : LimiterUpdate
  cancelAtRetryWait : Bool
  cancelAtBackoffWait : Bool

/-- The per-call environment of `RoundTrip`: the request id drawn from
the global counter, whether the authorizer fails, whether
`limiter.Next` fails, whether the rate-limit gate delay is positive,
whether the context is done during the gate wait, and the behaviour of
every transport attempt. -/
structure Env where
  reqid : Int
  authFails : Bool
  nextFails : Bool
  gateDelayPos : Bool
  cancelAtGate : Bool
  att : Nat → Attempt

/-- A wait the pipeline performed before re-sending, labelled with the
attempt counter value at which it was taken: a rate-limiter forced
retry wait, or a status-driven backoff wait of the given duration. -/
inductive Event where
  | forcedRetryWait (i : Nat) (after : Int)
  | backoffWait (i : Nat) (delay : Int)
deriving DecidableEq

/-- The attempt counter value at which a wait was taken. -/
def Event.attempt : Event → Nat
  | .forcedRetryWait i _ => i
  | .backoffWait i _ => i

/-- How one `RoundTrip` call ends.  `ok` is the returned 2xx response;
`authErr` the authorization failure; `nextErr` the `limiter.Next`
failure; `transportErr` a `c.Client.Do` error; `canceled` is
`context.Canceled`; `retrySignalErr` is the limiter's `RetryError`
returned when the retry budget is exhausted; `limiterErr` the formatted
non-retry rate-limit error; `apiErr` the classification `*Error`. -/
inductive Outcome where
  | ok (rsp : Response)
  | authErr
  | nextErr
  | transportErr
  | canceled
  | retrySignalErr
  | limiterErr
  | apiErr (e : ApiError)
deriving DecidableEq

/-- The result of a `RoundTrip` call: the outcome, the number of
transport attempts performed, and the ordered waits taken between
attempts. -/
structure RTResult where
  outcome : Outcome
  attempts : Nat
  trace : List Event
deriving DecidableEq

/-- The backoff delay of `api.go` lines 379–385: the configured backoff
when positive, else the default, times `i + 1` (progressive backoff). -/
def backoffDelay (c : Client) (i : Nat) : Int :=
  (if c.backoff > 0 then c.backoff else backoffDefault) * (i + 1)

/-- The limiter update the loop sees on attempt `i`: `l.Update` is only
called when a limiter is configured (`api.go` lines 354–356). -/
def seenUpdate (c : Client) (env : Env) (i : Nat) : LimiterUpdate :=
  if c.limiter.isSome then (env.att i).update else .noUpdate

/-- The status-driven retry guard of `api.go` lines 377–378:
`c.retry != nil && i < maxRetries && !isSuccess(status)` and the status
is in the retry set. -/
def statusRetry (c : Client) (i : Nat) (status : Nat) : Bool :=
  c.retry.isSome && decide (i < maxRetries) && !isSuccess status &&
    (c.retry.getD []).contains status

/-- The `retries:` loop of `RoundTrip` (`api.go` lines 341–410),
starting at attempt counter `i`.  Each iteration: perform the transport
call; update the limiter; on a `RetryError`, fail with the limiter's
error if `i >= maxRetries`, else wait (racing cancellation) and retry;
otherwise, if the status-retry guard holds, wait the progressive
backoff (racing cancellation) and retry; otherwise classify via
`checkErr`, surface a pending non-retry limiter error, or return the
response. -/
def loopFrom (c : Client) (env : Env) (i : Nat) : RTResult :=
  match (env.att i).transport with
  | none => ⟨.transportErr, 1, []⟩
  | some tsp =>
    match seenUpdate c env i with
    | .retrySignal after =>
      if _h : maxRetries ≤ i then ⟨.retrySignalErr, 1, []⟩
      else if (env.att i).cancelAtRetryWait then ⟨.canceled, 1, []⟩
      else
        let r := loopFrom c env (i + 1)
        ⟨r.outcome, r.attempts + 1, .forcedRetryWait i after :: r.trace⟩
    | u =>
      if _h : statusRetry c i tsp.statusCode = true then
        if (env.att i).cancelAtBackoffWait then ⟨.canceled, 1, []⟩
        else
          let r := loopFrom c env (i + 1)
          ⟨r.outcome, r.attempts + 1, .backoffWait i (backoffDelay c i) :: r.trace⟩
      else
        match checkErr env.reqid tsp with
        | some e => ⟨.apiErr e, 1, []⟩
        | none =>
          match u with
          | .otherErr => ⟨.limiterErr, 1, []⟩
          | _ => ⟨.ok tsp, 1, []⟩
termination_by maxRetries - i
decreasing_by
  · omega
  · simp only [statusRetry, Bool.and_eq_true, decide_eq_true_eq] at _h
    omega

/-- `Client.RoundTrip` (`api.go` lines 270–439) as a function of the
client and the environment: authorize, then — when a limiter is
configured — consult `limiter.Next` and wait out a positive gate delay
racing cancellation, then run the retry loop from attempt 0.  (URL
resolution against the base and the default-header merge act on the
request value and are modelled by `mergeDefaultHeaders`; they do not
affect the control flow embedded here.) -/
def roundTrip (c : Client) (env : Env) : RTResult :=
  if c.auth.isSome && env.authFails then ⟨.authErr, 0, []⟩
  else if c.limiter.isSome then
    if env.nextFails then ⟨.nextErr, 0, []⟩
    else if env.gateDelayPos && env.cancelAtGate then ⟨.canceled, 0, []⟩
    else loopFrom c env 0
  else loopFrom c env 0

/-- `Client.Do` (`api.go` lines 265–267) simply calls `RoundTrip`. -/
def clientDo (c : Client) (env : Env) : RTResult :=
  roundTrip c env

/-! ## Header sanitization and the debug dump (`src/v1/debug.go`,
`api.go` lines 320–338 and 422–436) -/

/-- Source: the `sensitiveHeaders` map of `debug.go` — the canonical
Authorization key. -/
def sensitiveHeaders : List String :=
  [canonicalHeaderKey "Authorization"]

/-- Source: `defaultAllowHeader` in `debug.go` — a name is allowed when
it is not sensitive. -/
def defaultAllowHeader (n : String) : Bool :=
  !(sensitiveHeaders.contains n)

/-- The placeholder `sanitizeHeaders` substitutes for a sensitive
value: its byte length and SHA-256 digest.  `sha256hex` stands for Go's
`crypto/sha256` + `encoding/hex`, an external capability. -/
def redactValue (sha256hex : String → String) (v : String) : String :=
  "<apiclient: redacted " ++ toString v.utf8ByteSize ++ " bytes; SHA256=" ++
    sha256hex v ++ ">"

/-- Source: `sanitizeHeaders` in `debug.go`: every header name is kept
(canonicalized by `Header.Add`); values of allowed names are copied,
values of disallowed names are replaced by the redaction placeholder. -/
def sanitizeHeaders (sha256hex : String → String) (hdr : Header)
    (allowed : String → Bool) : Header :=
  hdr.foldl
    (fun res kv =>
      let n := canonicalHeaderKey kv.1
      if allowed n then
        kv.2.foldl (fun r e => headerAdd r n e) res
      else
        kv.2.foldl (fun r e => headerAdd r n (redactValue sha256hex e)) res)
    []

/-- The request-header dump `RoundTrip` actually performs when debug is
enabled (`api.go` lines 323–326): `req.Header.Write(b)` on the raw
header — `sanitizeHeaders` is not applied there (nor at the response
dump of lines 422–425); the sanitizing `dumpReq`/`dumpRsp` of
`debug.go` are never called. -/
def roundTripDebugDump (reqHeader : Header) : List String :=
  headerWriteLines reqHeader

/-! ## The multiplexer (`src/v1/multiplex/multiplex.go`) -/

/-- A `multiplex.Result`: the original request index and its response. -/
structure MuxResult where
  index : Nat
  response : Response
deriving DecidableEq

/-- The comparison of `resultSet.Less` (`multiplex.go` line 127), as the
non-strict order `sort.Sort` establishes. -/
def muxResultLE (a b : MuxResult) : Prop :=
  a.index ≤ b.index

instance : DecidableRel muxResultLE :=
  fun a b => inferInstanceAs (Decidable (a.index ≤ b.index))

instance : IsTotal MuxResult muxResultLE :=
  ⟨fun a b => Nat.le_total a.index b.index⟩

instance : IsTrans MuxResult muxResultLE :=
  ⟨fun _ _ _ hab hbc => Nat.le_trans hab hbc⟩

/-- The `sort.Sort(resultSet(buf))` step of `Collect` (`multiplex.go`
line 145): sort the buffered results by original index.  (`sort.Sort`
is unstable; on the distinct indices produced by the production loop
every correct sort yields the same list.) -/
def sortResults (l : List MuxResult) : List MuxResult :=
  List.insertionSort muxResultLE l

/-- Errors on the multiplex path.  `code` is an abstract pipeline or
handler error; `wrapMultiplex` is the `fmt.Errorf("Could not multiplex
request: %w", err)` wrapper of `block`. -/
inductive MErr where
  | code (n : Nat)
  | wrapMultiplex (e : MErr)
deriving DecidableEq

/-- Model of `errors.Is` over `MErr`: direct equality or a match after
unwrapping the multiplex wrapper. -/
def merrIs (e target : MErr) : Bool :=
  if e = target then true
  else
    match e with
    | .wrapMultiplex inner => merrIs inner target
    | .code _ => false

/-- How the iterator that feeds `Collect` ends: the `siter.ErrClosed`
sentinel at clean end-of-sequence, or a cancellation cause. -/
inductive IterEnd where
  | closed
  | canceled (e : MErr)
deriving DecidableEq

/-- Source: `Collect` in `multiplex.go` (lines 129–152).  The iterator
is abstracted as the results it delivers followed by how it ends: an
incoming error is returned as is; a cancellation cause surfaces as the
error; on clean close the buffered results are sorted by original index
and their responses returned in that order. -/
def collect (items : List MuxResult) (ending : IterEnd)
    (err : Option MErr) : Except MErr (List Response) :=
  match err with
  | some e => .error e
  | none =>
    match ending with
    | .canceled e => .error e
    | .closed => .ok ((sortResults items).map (·.response))

/-- A `multiplex.ErrorHandler`, as a function: `Handle(rsp, err)`
returns a substitute response and error. -/
def HandlerFn : Type :=
  Option Response → MErr → Option Response × Option MErr

/-- How one unit of work built by `block` (`multiplex.go` lines
189–214) completes: it writes a `Result` to the iterator, completes
silently with no result, or fails (which the dispatcher turns into a
fail-fast cancellation of the whole operation). -/
inductive BlockOutcome where
  | emit (r : MuxResult)
  | skip
  | fail (e : MErr)
deriving DecidableEq

/-- Source: the closure returned by `block`: run `Client.Do`; if it
failed and a handler is configured, let the handler process first; an
error after that fails the unit with the wrapped error; a nil response
with nil error completes silently; otherwise the result is written with
the unit's original index. -/
def blockRun (errh : Option HandlerFn) (i : Nat) (doRsp : Option Response)
    (doErr : Option MErr) : BlockOutcome :=
  let handled :=
    match doErr, errh with
    | some e, some h => h doRsp e
    | _, _ => (doRsp, doErr)
  match handled.2 with
  | some e => .fail (.wrapMultiplex e)
  | none =>
    match handled.1 with
    | none => .skip
    | some r => .emit ⟨i, r⟩

/-- The `multiplex.Mux` structure: the bound client, the concurrency
ceiling, the optional error handler and the env-derived debug flags. -/
structure Mux where
  client : Client
  concur : Int
  errors : Option HandlerFn
  verbose : Bool
  debug : Bool

/-- Source: `multiplex.New` (`multiplex.go` lines 179–186): the ceiling
is `max(1, n)`; the handler is left unset and the flags come from the
environment. -/
def muxNew (c : Client) (n : Int) (verbose debug : Bool) : Mux :=
  { client := c
    concur := max 1 n
    errors := none
    verbose := verbose
    debug := debug }

/-- The strict index order, used to show the sorted buffer is unique. -/
def muxResultLT (a b : MuxResult) : Prop :=
  a.index < b.index

instance : IsAntisymm MuxResult muxResultLT :=
  ⟨fun _ _ h1 h2 => absurd h1 (Nat.lt_asymm h2)⟩

/-! ## Concrete inputs used by witnesses and counterexamples -/

/-- A concrete client whose retry set and backoff are non-zero, used to
exhibit the fields `WithBase`/`WithAuthorizer` fail to carry over. -/
def c5client : Client :=
  { httpClient := 1
    auth := some 2
    limiter := some 3
    retry := some [500, 503]
    backoff := 7
    base := some "https://one.example"
    header := [("X-Token", ["t"])]
    dctype := "application/json"
    debug := ⟨false, false⟩ }

/-- A concrete credential value for the Authorization header. -/
def c8secret : String := "Bearer c8-secret-token"

/-- A request header carrying the credential. -/
def c8reqHeader : Header := [("Authorization", [c8secret])]

/-- A 404 response with a JSON body, for the C1 witness. -/
def rsp404w : Response :=
  ⟨404, [("Content-Type", ["application/json"])], "nope"⟩

/-- A bare client with no limiter and an empty retry set. -/
def c1wClient : Client :=
  ⟨0, none, none, some [], 0, none, [], "application/json", ⟨false, false⟩⟩

/-- An environment that always answers 404 with no limiter activity. -/
def c1wEnv : Env :=
  ⟨7, false, false, false, false, fun _ => ⟨some rsp404w, .noUpdate, false, false⟩⟩

/-- A rate-limited 429 response. -/
def rsp429 : Response := ⟨429, [], "limited"⟩

/-- A client with a limiter configured. -/
def c1cexClient : Client :=
  ⟨0, none, some 1, some [], 0, none, [], "application/json", ⟨false, false⟩⟩

/-- An environment in which every attempt yields a 429 and the limiter
signals a forced retry. -/
def c1cexEnv : Env :=
  ⟨11, false, false, false, false,
    fun _ => ⟨some rsp429, .retrySignal 5, false, false⟩⟩

/-- A 503 response for the C2 witness. -/
def rsp503w : Response := ⟨503, [], "oops"⟩

/-- A client with a limiter, 503 retryable, and a 5 ns backoff. -/
def c2wClient : Client :=
  ⟨0, none, some 1, some [503], 5, none, [], "application/json", ⟨false, false⟩⟩

/-- A run that mixes both retry tiers: a forced retry on attempt 0,
backoff retries on attempts 1 and 2, and a final 503 on attempt 3. -/
def c2wEnv : Env :=
  ⟨13, false, false, false, false,
    fun i =>
      if i = 0 then ⟨some rsp503w, .retrySignal 9, false, false⟩
      else ⟨some rsp503w, .noUpdate, false, false⟩⟩

/-- A 503 and a 200 response for the C3 witness. -/
def rsp503c3 : Response := ⟨503, [], "unavailable"⟩

def rsp200c3 : Response := ⟨200, [], "fine"⟩

/-- A client with 503 retryable and a configured backoff of 60 ns. -/
def c3wClient : Client :=
  ⟨0, none, none, some [503], 60, none, [], "application/json", ⟨false, false⟩⟩

/-- A run whose first attempt gets 503 and second gets 200. -/
def c3wEnv : Env :=
  ⟨17, false, false, false, false,
    fun i =>
      if i = 0 then ⟨some rsp503c3, .noUpdate, false, false⟩
      else ⟨some rsp200c3, .noUpdate, false, false⟩⟩

/-- A client with a limiter and 503 retryable, for the C9 witness. -/
def c9wClient : Client :=
  ⟨0, none, some 1, some [503], 0, none, [], "application/json", ⟨false, false⟩⟩

/-- An environment canceled during the gate wait. -/
def c9wEnvGate : Env :=
  ⟨19, false, false, true, true, fun _ => ⟨some rsp503w, .noUpdate, false, false⟩⟩

/-- An environment canceled during the forced-retry wait of attempt 0. -/
def c9wEnvRetry : Env :=
  ⟨19, false, false, false, false,
    fun _ => ⟨some rsp503w, .retrySignal 9, true, false⟩⟩

/-- An environment canceled during the backoff wait of attempt 0. -/
def c9wEnvBackoff : Env :=
  ⟨19, false, false, false, false,
    fun _ => ⟨some rsp503w, .noUpdate, false, true⟩⟩

/-! ## C10 — concurrency ceiling of `multiplex.New` -/

/-- C10: for every client and every integer `n` (zero and negative
included), `multiplex.New(c, n)` builds a `Mux` whose concurrency
ceiling is `max(1, n)`, hence always at least 1 — a non-positive `n`
yields a working sequential multiplexer. -/
theorem muxNew_concurrency_floor (c : Client) (n : Int) (v d : Bool) :
    (muxNew c n v d).concur = max 1 n ∧ 1 ≤ (muxNew c n v d).concur := by
  refine ⟨rfl, ?_⟩
  simp [muxNew]

/-! ## C5 — derived clients -/

/-- C5 counterexample: `WithBase` and `WithAuthorizer` do NOT return a
client equal in every other configuration field — the `retry` status
set and the `backoff` duration are omitted from both composite literals
(`api.go` lines 125–135 and 141–151) and reset to their zero values. -/
theorem withBase_drops_retry_and_backoff :
    (withBase c5client (some "https://two.example")).retry ≠ c5client.retry ∧
    (withBase c5client (some "https://two.example")).backoff ≠ c5client.backoff ∧
    (withAuthorizer c5client (some 9)).retry ≠ c5client.retry ∧
    (withAuthorizer c5client (some 9)).backoff ≠ c5client.backoff := by
  refine ⟨?_, ?_, ?_, ?_⟩ <;> decide

/-- C5 amended: `WithBase(b)` returns a new client with base `b`,
with the transport, authorizer, limiter, header set, content type and
debug configuration of the receiver, and with the retry-status set and
backoff reset to their zero values (nil and 0); `WithAuthorizer(a)`
likewise replaces only the authorizer and resets the same two fields.
The receiver is a value the functions never write to. -/
theorem withBase_withAuthorizer_field_map (c : Client) (b : Option String)
    (a : Option Nat) :
    (withBase c b).httpClient = c.httpClient ∧
    (withBase c b).auth = c.auth ∧
    (withBase c b).limiter = c.limiter ∧
    (withBase c b).base = b ∧
    (withBase c b).header = c.header ∧
    (withBase c b).dctype = c.dctype ∧
    (withBase c b).debug = c.debug ∧
    (withBase c b).retry = none ∧
    (withBase c b).backoff = 0 ∧
    (withAuthorizer c a).httpClient = c.httpClient ∧
    (withAuthorizer c a).auth = a ∧
    (withAuthorizer c a).limiter = c.limiter ∧
    (withAuthorizer c a).base = c.base ∧
    (withAuthorizer c a).header = c.header ∧
    (withAuthorizer c a).dctype = c.dctype ∧
    (withAuthorizer c a).debug = c.debug ∧
    (withAuthorizer c a).retry = none ∧
    (withAuthorizer c a).backoff = 0 := by
  simp [withBase, withAuthorizer]

/-! ## C7 — per-unit error handling in `block` -/

/-- C7: when a multiplexed unit's pipeline execution fails and an error
handler is configured, the handler is applied to the (response, error)
pair first, and the unit's outcome is decided entirely by what it
returns: a non-nil error fails the unit with that error wrapped in the
multiplex context message (still matched by `errors.Is` on the
handler's error, witness the second conjunct); a non-nil response with
nil error is emitted as the unit's `Result` under its original index;
nil response with nil error completes the unit with no result. -/
theorem blockRun_handler_outcomes (h : HandlerFn) (i : Nat)
    (rsp0 : Option Response) (e : MErr) :
    (blockRun (some h) i rsp0 (some e) =
      match h rsp0 e with
      | (_, some e2) => .fail (.wrapMultiplex e2)
      | (some r, none) => .emit ⟨i, r⟩
      | (none, none) => .skip) ∧
    (∀ e2 : MErr, merrIs (.wrapMultiplex e2) e2 = true) := by
  constructor
  · rcases hh : h rsp0 e with ⟨r, err⟩
    cases err <;> cases r <;> simp [blockRun, hh]
  · intro e2
    rw [merrIs.eq_def]
    split
    · rfl
    · show merrIs e2 e2 = true
      rw [merrIs.eq_def]
      simp

/-! ## C4 — default-header merge -/

theorem headerLookup_set_self (h : Header) (n : String) (v : List String) :
    headerLookup (headerSet h n v) n = some v := by
  induction h with
  | nil => simp [headerSet, headerLookup]
  | cons kv t ih =>
    obtain ⟨k, w⟩ := kv
    by_cases hk : k = n <;> simp [headerSet, headerLookup, hk, ih]

theorem headerLookup_set_ne (h : Header) (m n : String) (v : List String)
    (hmn : m ≠ n) :
    headerLookup (headerSet h m v) n = headerLookup h n := by
  induction h with
  | nil => simp [headerSet, headerLookup, hmn]
  | cons kv t ih =>
    obtain ⟨k, w⟩ := kv
    by_cases hk : k = m
    · subst hk
      simp [headerSet, headerLookup, hmn]
    · by_cases hn : k = n
      · subst hn
        simp [headerSet, headerLookup, hk]
      · simp [headerSet, headerLookup, hk, hn, ih]

theorem headerHas_mergeStep (acc : Header) (kv : String × List String)
    (n : String) :
    headerHas (mergeStep acc kv) n =
      (headerHas acc n || (canonicalHeaderKey kv.1 == n)) := by
  unfold mergeStep headerHas
  by_cases h0 : (headerLookup acc (canonicalHeaderKey kv.1)).isSome = true
  · rw [if_pos h0]
    by_cases hn : canonicalHeaderKey kv.1 = n
    · subst hn
      simp [h0]
    · simp [hn]
  · rw [if_neg h0]
    by_cases hn : canonicalHeaderKey kv.1 = n
    · subst hn
      rw [headerLookup_set_self]
      simp
    · rw [headerLookup_set_ne _ _ _ _ hn]
      simp [hn]

theorem merge_preserves_request (ch : Header) :
    ∀ (acc : Header) (n : String), headerHas acc n = true →
      headerLookup (List.foldl mergeStep acc ch) n = headerLookup acc n := by
  induction ch with
  | nil => intro acc n _; rfl
  | cons kv t ih =>
    intro acc n hacc
    rw [List.foldl_cons]
    by_cases h0 : headerHas acc (canonicalHeaderKey kv.1) = true
    · rw [show mergeStep acc kv = acc by simp [mergeStep, h0]]
      exact ih acc n hacc
    · have hne : canonicalHeaderKey kv.1 ≠ n := by
        intro he; rw [he] at h0; exact h0 hacc
      have hstep : mergeStep acc kv = headerSet acc (canonicalHeaderKey kv.1) kv.2 := by
        simp only [Bool.not_eq_true] at h0
        simp [mergeStep, h0]
      have hl : headerLookup (mergeStep acc kv) n = headerLookup acc n := by
        rw [hstep, headerLookup_set_ne _ _ _ _ hne]
      have hh : headerHas (mergeStep acc kv) n = true := by
        unfold headerHas at hacc ⊢
        rw [hl]; exact hacc
      rw [ih (mergeStep acc kv) n hh, hl]

theorem merge_presence (ch : Header) :
    ∀ (acc : Header) (n : String),
      headerHas (List.foldl mergeStep acc ch) n =
        (headerHas acc n || ch.any fun kv => canonicalHeaderKey kv.1 == n) := by
  induction ch with
  | nil => intro acc n; simp
  | cons kv t ih =>
    intro acc n
    rw [List.foldl_cons, ih, headerHas_mergeStep]
    simp [Bool.or_assoc]

theorem merge_copies_absent (ch : Header) :
    ∀ (acc : Header) (k : String) (v : List String) (n : String),
      (ch.map fun kv => canonicalHeaderKey kv.1).Nodup →
      (k, v) ∈ ch → canonicalHeaderKey k = n → headerHas acc n = false →
      headerLookup (List.foldl mergeStep acc ch) n = some v := by
  induction ch with
  | nil => intro acc k v n _ hmem; simp at hmem
  | cons kv0 t ih =>
    intro acc k v n hnd hmem hck hacc
    rw [List.foldl_cons]
    rcases List.mem_cons.mp hmem with heq | hmem'
    · subst heq
      have hstep : mergeStep acc (k, v) = headerSet acc n v := by
        simp [mergeStep, hck, headerHas, hacc]
        intro hcontra
        rw [headerHas] at hacc
        rw [hcontra] at hacc
        simp at hacc
      rw [hstep]
      have hset : headerLookup (headerSet acc n v) n = some v :=
        headerLookup_set_self acc n v
      have hh : headerHas (headerSet acc n v) n = true := by
        unfold headerHas; rw [hset]; rfl
      rw [merge_preserves_request t _ n hh, hset]
    · have hn0 : canonicalHeaderKey kv0.1 ≠ n := by
        intro he
        have hin : n ∈ t.map fun kv => canonicalHeaderKey kv.1 :=
          hck ▸ List.mem_map_of_mem _ hmem'
        rw [List.map_cons, List.nodup_cons] at hnd
        exact hnd.1 (he ▸ hin)
      have hacc' : headerHas (mergeStep acc kv0) n = false := by
        rw [headerHas_mergeStep, hacc]
        simp [hn0]
      rw [List.map_cons, List.nodup_cons] at hnd
      exact ih (mergeStep acc kv0) k v n hnd.2 hmem' hck hacc'

/-- C4: when `RoundTrip` merges the client's default headers into the
outgoing request, (1) every header name the request already sets keeps
exactly the request's own values; (2) a name is present after the merge
exactly when the request set it or some client default key
canonicalizes to it — so defaults are copied only for names the request
does not set; (3) for client keys with distinct canonical forms, a name
the request does not set receives precisely the client's value list for
it. -/
theorem mergeDefaultHeaders_request_wins :
    (∀ (ch req : Header) (n : String), headerHas req n = true →
        headerLookup (mergeDefaultHeaders ch req) n = headerLookup req n) ∧
    (∀ (ch req : Header) (n : String),
        headerHas (mergeDefaultHeaders ch req) n =
          (headerHas req n || ch.any fun kv => canonicalHeaderKey kv.1 == n)) ∧
    (∀ (ch req : Header) (k : String) (v : List String) (n : String),
        (ch.map fun kv => canonicalHeaderKey kv.1).Nodup →
        (k, v) ∈ ch → canonicalHeaderKey k = n → headerHas req n = false →
        headerLookup (mergeDefaultHeaders ch req) n = some v) := by
  refine ⟨?_, ?_, ?_⟩
  · intro ch req n h
    exact merge_preserves_request ch req n h
  · intro ch req n
    exact merge_presence ch req n
  · intro ch req k v n hnd hmem hck hacc
    exact merge_copies_absent ch req k v n hnd hmem hck hacc

/-- C4 witness: on a concrete request that sets `Content-Type` and a
client that defaults both `Content-Type` and `X-Extra`, the merge keeps
the request's `Content-Type` and copies `X-Extra`. -/
theorem mergeDefaultHeaders_request_wins_witness :
    headerLookup
        (mergeDefaultHeaders [("Content-Type", ["text/plain"]), ("X-Extra", ["7"])]
          [("Content-Type", ["application/json"])]) "Content-Type" =
      some ["application/json"] ∧
    headerLookup
        (mergeDefaultHeaders [("Content-Type", ["text/plain"]), ("X-Extra", ["7"])]
          [("Content-Type", ["application/json"])]) "X-Extra" =
      some ["7"] := by
  constructor
  · have h := mergeDefaultHeaders_request_wins.1
      [("Content-Type", ["text/plain"]), ("X-Extra", ["7"])]
      [("Content-Type", ["application/json"])] "Content-Type" (by decide)
    rw [h]; decide
  · exact mergeDefaultHeaders_request_wins.2.2
      [("Content-Type", ["text/plain"]), ("X-Extra", ["7"])]
      [("Content-Type", ["application/json"])] "X-Extra" ["7"] "X-Extra"
      (by decide) (by decide) (by decide) (by decide)

/-! ## C8 — sensitive headers in diagnostic dumps -/

/-- C8, evaluated at the failing input: the header dump `RoundTrip`
performs in debug mode (`req.Header.Write`, `api.go` lines 323–326, and
likewise `rsp.Header.Write` at lines 422–425) reproduces the
Authorization value verbatim — no placeholder is substituted — whereas
`sanitizeHeaders` with the default allow predicate (the redaction the
claim describes, implemented in `debug.go` but only reachable from the
never-called `dumpReq`/`dumpRsp`) replaces it with the length-and-hash
placeholder for every choice of the external SHA-256 function. -/
theorem roundTripDebugDump_not_redacted :
    roundTripDebugDump c8reqHeader = ["Authorization: " ++ c8secret] ∧
    (∀ sha256hex : String → String,
        sanitizeHeaders sha256hex c8reqHeader defaultAllowHeader =
          [("Authorization", [redactValue sha256hex c8secret])]) := by
  constructor
  · rfl
  · intro f
    have hA : canonicalHeaderKey "Authorization" = "Authorization" := by decide
    have hallow : defaultAllowHeader "Authorization" = false := by decide
    simp [sanitizeHeaders, c8reqHeader, hallow, headerAdd, hA]

/-! ## C6 — `Collect` restores request order -/

theorem sortResults_of_perm_range (N : Nat) (r : Nat → Response)
    (items : List MuxResult)
    (hp : items.Perm ((List.range N).map fun i => (⟨i, r i⟩ : MuxResult))) :
    sortResults items = (List.range N).map fun i => (⟨i, r i⟩ : MuxResult) := by
  set canon := (List.range N).map fun i => (⟨i, r i⟩ : MuxResult) with hc
  have hperm : sortResults items |>.Perm canon :=
    (List.perm_insertionSort muxResultLE items).trans hp
  have hsortedLE : (sortResults items).Sorted muxResultLE :=
    List.sorted_insertionSort muxResultLE items
  have hcanonLT : canon.Sorted muxResultLT := by
    rw [hc]
    refine List.pairwise_map.mpr ?_
    exact (List.pairwise_lt_range N).imp fun h => h
  have hnodupIdx : ((sortResults items).map MuxResult.index).Nodup := by
    have hmapperm : ((sortResults items).map MuxResult.index).Perm
        (canon.map MuxResult.index) := hperm.map _
    have hcanonIdx : canon.map MuxResult.index = List.range N := by
      rw [hc, List.map_map]
      exact List.map_id (List.range N)
    rw [hmapperm.nodup_iff, hcanonIdx]
    exact List.nodup_range N
  have hsortedLT : (sortResults items).Sorted muxResultLT := by
    have hne : (sortResults items).Pairwise fun a b => a.index ≠ b.index :=
      List.pairwise_map.mp hnodupIdx
    exact (hsortedLE.and hne).imp fun hab => Nat.lt_of_le_of_ne hab.1 hab.2
  exact List.eq_of_perm_of_sorted hperm hsortedLT hcanonLT

/-- C6: for any batch of `N` requests that all succeed — i.e. the
iterator delivers, in an arbitrary completion order, exactly one
`Result` per original index `0 … N-1` and then closes — `Collect`
drains it to the closed sentinel and returns exactly `N` responses in
ascending original-index order: the `i`-th returned response is the one
whose `Result` carried index `i`.  The completion order (hence any
concurrency ceiling ≥ 1) is irrelevant: the permutation is arbitrary. -/
theorem collect_restores_request_order (N : Nat) (r : Nat → Response)
    (items : List MuxResult)
    (hp : items.Perm ((List.range N).map fun i => (⟨i, r i⟩ : MuxResult))) :
    collect items .closed none = .ok ((List.range N).map r) := by
  unfold collect
  rw [sortResults_of_perm_range N r items hp, List.map_map]
  rfl

/-! ## Step lemmas for the retry loop

One lemma per arm of the `retries:` loop, used by the pipeline claims.
-/

theorem checkErr_none_iff (reqid : Int) (rsp : Response) :
    checkErr reqid rsp = none ↔ isSuccess rsp.statusCode = true := by
  by_cases h : isSuccess rsp.statusCode <;> simp [checkErr, h]

theorem statusRetry_lt (c : Client) (i : Nat) (status : Nat)
    (hs : statusRetry c i status = true) : i < maxRetries := by
  simp only [statusRetry, Bool.and_eq_true, decide_eq_true_eq] at hs
  exact hs.1.1.2

theorem loopFrom_transport_none (c : Client) (env : Env) (i : Nat)
    (htr : (env.att i).transport = none) :
    loopFrom c env i = ⟨.transportErr, 1, []⟩ := by
  rw [loopFrom.eq_def, htr]

theorem loopFrom_retrySignal_exhausted (c : Client) (env : Env) (i : Nat)
    (tsp : Response) (after : Int)
    (htr : (env.att i).transport = some tsp)
    (hu : seenUpdate c env i = .retrySignal after)
    (hi : maxRetries ≤ i) :
    loopFrom c env i = ⟨.retrySignalErr, 1, []⟩ := by
  rw [loopFrom.eq_def, htr, hu]
  simp [hi]

theorem loopFrom_retrySignal_canceled (c : Client) (env : Env) (i : Nat)
    (tsp : Response) (after : Int)
    (htr : (env.att i).transport = some tsp)
    (hu : seenUpdate c env i = .retrySignal after)
    (hi : i < maxRetries)
    (hc : (env.att i).cancelAtRetryWait = true) :
    loopFrom c env i = ⟨.canceled, 1, []⟩ := by
  rw [loopFrom.eq_def, htr, hu]
  simp [Nat.not_le.mpr hi, hc]

theorem loopFrom_retrySignal_continue (c : Client) (env : Env) (i : Nat)
    (tsp : Response) (after : Int)
    (htr : (env.att i).transport = some tsp)
    (hu : seenUpdate c env i = .retrySignal after)
    (hi : i < maxRetries)
    (hc : (env.att i).cancelAtRetryWait = false) :
    loopFrom c env i =
      ⟨(loopFrom c env (i + 1)).outcome, (loopFrom c env (i + 1)).attempts + 1,
        .forcedRetryWait i after :: (loopFrom c env (i + 1)).trace⟩ := by
  rw [loopFrom.eq_def, htr, hu]
  simp [Nat.not_le.mpr hi, hc]

theorem loopFrom_backoff_canceled (c : Client) (env : Env) (i : Nat)
    (tsp : Response)
    (htr : (env.att i).transport = some tsp)
    (hno : ∀ a, seenUpdate c env i ≠ .retrySignal a)
    (hs : statusRetry c i tsp.statusCode = true)
    (hc : (env.att i).cancelAtBackoffWait = true) :
    loopFrom c env i = ⟨.canceled, 1, []⟩ := by
  rw [loopFrom.eq_def, htr]
  cases hu : seenUpdate c env i with
  | retrySignal a => exact absurd hu (hno a)
  | noUpdate => simp [hs, hc]
  | otherErr => simp [hs, hc]

theorem loopFrom_backoff_continue (c : Client) (env : Env) (i : Nat)
    (tsp : Response)
    (htr : (env.att i).transport = some tsp)
    (hno : ∀ a, seenUpdate c env i ≠ .retrySignal a)
    (hs : statusRetry c i tsp.statusCode = true)
    (hc : (env.att i).cancelAtBackoffWait = false) :
    loopFrom c env i =
      ⟨(loopFrom c env (i + 1)).outcome, (loopFrom c env (i + 1)).attempts + 1,
        .backoffWait i (backoffDelay c i) :: (loopFrom c env (i + 1)).trace⟩ := by
  rw [loopFrom.eq_def, htr]
  cases hu : seenUpdate c env i with
  | retrySignal a => exact absurd hu (hno a)
  | noUpdate => simp [hs, hc]
  | otherErr => simp [hs, hc]

theorem loopFrom_classify (c : Client) (env : Env) (i : Nat)
    (tsp : Response) (e : ApiError)
    (htr : (env.att i).transport = some tsp)
    (hno : ∀ a, seenUpdate c env i ≠ .retrySignal a)
    (hs : statusRetry c i tsp.statusCode = false)
    (he : checkErr env.reqid tsp = some e) :
    loopFrom c env i = ⟨.apiErr e, 1, []⟩ := by
  rw [loopFrom.eq_def, htr]
  cases hu : seenUpdate c env i with
  | retrySignal a => exact absurd hu (hno a)
  | noUpdate => simp [hs, he]
  | otherErr => simp [hs, he]

theorem loopFrom_limiter_err (c : Client) (env : Env) (i : Nat)
    (tsp : Response)
    (htr : (env.att i).transport = some tsp)
    (hu : seenUpdate c env i = .otherErr)
    (hs : statusRetry c i tsp.statusCode = false)
    (he : checkErr env.reqid tsp = none) :
    loopFrom c env i = ⟨.limiterErr, 1, []⟩ := by
  rw [loopFrom.eq_def, htr, hu]
  simp [hs, he]

theorem loopFrom_ok_step (c : Client) (env : Env) (i : Nat)
    (tsp : Response)
    (htr : (env.att i).transport = some tsp)
    (hu : seenUpdate c env i = .noUpdate)
    (hs : statusRetry c i tsp.statusCode = false)
    (he : checkErr env.reqid tsp = none) :
    loopFrom c env i = ⟨.ok tsp, 1, []⟩ := by
  rw [loopFrom.eq_def, htr, hu]
  simp [hs, he]

/-! ## Inductive facts about the retry loop -/

theorem loopFrom_ok_success (c : Client) (env : Env) :
    ∀ (i : Nat) (rsp : Response), (loopFrom c env i).outcome = .ok rsp →
      isSuccess rsp.statusCode = true := by
  intro i
  induction i using loopFrom.induct c env with
  | case1 x htr =>
    intro rsp h
    rw [loopFrom_transport_none c env x htr] at h
    simp at h
  | case2 x tsp htr after hu hmax =>
    intro rsp h
    rw [loopFrom_retrySignal_exhausted c env x tsp after htr hu hmax] at h
    simp at h
  | case3 x tsp htr after hu hmax hc =>
    intro rsp h
    rw [loopFrom_retrySignal_canceled c env x tsp after htr hu
      (Nat.lt_of_not_le hmax) hc] at h
    simp at h
  | case4 x tsp htr after hu hmax hc ih =>
    intro rsp h
    rw [loopFrom_retrySignal_continue c env x tsp after htr hu
      (Nat.lt_of_not_le hmax) (by simpa using hc)] at h
    exact ih rsp h
  | case5 x tsp htr hs hc hno =>
    intro rsp h
    rw [loopFrom_backoff_canceled c env x tsp htr hno hs hc] at h
    simp at h
  | case6 x tsp htr hs hc hno ih =>
    intro rsp h
    rw [loopFrom_backoff_continue c env x tsp htr hno hs (by simpa using hc)] at h
    exact ih rsp h
  | case7 x tsp htr hs e he hno =>
    intro rsp h
    rw [loopFrom_classify c env x tsp e htr hno (by simpa using hs) he] at h
    simp at h
  | case8 x tsp htr hs he hno hoth =>
    intro rsp h
    rw [loopFrom_limiter_err c env x tsp htr hoth (by simpa using hs) he] at h
    simp at h
  | case9 x tsp htr hs he hno hnototh =>
    intro rsp h
    have hu : seenUpdate c env x = .noUpdate := by
      cases hu' : seenUpdate c env x with
      | noUpdate => rfl
      | retrySignal a => exact absurd (hno a hu') id
      | otherErr => exact absurd (hnototh hu') id
    rw [loopFrom_ok_step c env x tsp htr hu (by simpa using hs) he] at h
    simp at h
    rw [← h]
    exact (checkErr_none_iff env.reqid tsp).mp he

theorem loopFrom_attempts_le (c : Client) (env : Env) :
    ∀ i : Nat, (loopFrom c env i).attempts ≤ maxRetries - i + 1 := by
  intro i
  induction i using loopFrom.induct c env with
  | case1 x htr =>
    rw [loopFrom_transport_none c env x htr]
    simp
  | case2 x tsp htr after hu hmax =>
    rw [loopFrom_retrySignal_exhausted c env x tsp after htr hu hmax]
    simp
  | case3 x tsp htr after hu hmax hc =>
    rw [loopFrom_retrySignal_canceled c env x tsp after htr hu
      (Nat.lt_of_not_le hmax) hc]
    simp
  | case4 x tsp htr after hu hmax hc ih =>
    rw [loopFrom_retrySignal_continue c env x tsp after htr hu
      (Nat.lt_of_not_le hmax) (by simpa using hc)]
    simp only
    omega
  | case5 x tsp htr hs hc hno =>
    rw [loopFrom_backoff_canceled c env x tsp htr hno hs hc]
    simp
  | case6 x tsp htr hs hc hno ih =>
    have hx := statusRetry_lt c x tsp.statusCode hs
    rw [loopFrom_backoff_continue c env x tsp htr hno hs (by simpa using hc)]
    simp only
    omega
  | case7 x tsp htr hs e he hno =>
    rw [loopFrom_classify c env x tsp e htr hno (by simpa using hs) he]
    simp
  | case8 x tsp htr hs he hno hoth =>
    rw [loopFrom_limiter_err c env x tsp htr hoth (by simpa using hs) he]
    simp
  | case9 x tsp htr hs he hno hnototh =>
    have hu : seenUpdate c env x = .noUpdate := by
      cases hu' : seenUpdate c env x with
      | noUpdate => rfl
      | retrySignal a => exact absurd (hno a hu') id
      | otherErr => exact absurd (hnototh hu') id
    rw [loopFrom_ok_step c env x tsp htr hu (by simpa using hs) he]
    simp

theorem loopFrom_trace_lt (c : Client) (env : Env) :
    ∀ i : Nat, ∀ ev ∈ (loopFrom c env i).trace, ev.attempt < maxRetries := by
  intro i
  induction i using loopFrom.induct c env with
  | case1 x htr =>
    rw [loopFrom_transport_none c env x htr]
    simp
  | case2 x tsp htr after hu hmax =>
    rw [loopFrom_retrySignal_exhausted c env x tsp after htr hu hmax]
    simp
  | case3 x tsp htr after hu hmax hc =>
    rw [loopFrom_retrySignal_canceled c env x tsp after htr hu
      (Nat.lt_of_not_le hmax) hc]
    simp
  | case4 x tsp htr after hu hmax hc ih =>
    rw [loopFrom_retrySignal_continue c env x tsp after htr hu
      (Nat.lt_of_not_le hmax) (by simpa using hc)]
    intro ev hev
    rcases List.mem_cons.mp hev with he | he
    · rw [he]
      exact Nat.lt_of_not_le hmax
    · exact ih ev he
  | case5 x tsp htr hs hc hno =>
    rw [loopFrom_backoff_canceled c env x tsp htr hno hs hc]
    simp
  | case6 x tsp htr hs hc hno ih =>
    rw [loopFrom_backoff_continue c env x tsp htr hno hs (by simpa using hc)]
    intro ev hev
    rcases List.mem_cons.mp hev with he | he
    · rw [he]
      exact statusRetry_lt c x tsp.statusCode hs
    · exact ih ev he
  | case7 x tsp htr hs e he hno =>
    rw [loopFrom_classify c env x tsp e htr hno (by simpa using hs) he]
    simp
  | case8 x tsp htr hs he hno hoth =>
    rw [loopFrom_limiter_err c env x tsp htr hoth (by simpa using hs) he]
    simp
  | case9 x tsp htr hs he hno hnototh =>
    have hu : seenUpdate c env x = .noUpdate := by
      cases hu' : seenUpdate c env x with
      | noUpdate => rfl
      | retrySignal a => exact absurd (hno a hu') id
      | otherErr => exact absurd (hnototh hu') id
    rw [loopFrom_ok_step c env x tsp htr hu (by simpa using hs) he]
    simp

/-! ## C1 — success or classified error -/

/-- C1 (amended): (1) whenever `RoundTrip` (hence `Do`) returns a
response without error its status is 2xx; (2) a non-2xx response of the
final attempt that reaches classification — no pending `RetrySignal`
and the status-retry guard not taken — is converted into an `*Error`
recording the request id, the status code, a snapshot of the response
body (with its content type) as the entity, and the sentinel cause for
its status; (3) the sentinel table maps 400, 401, 403, 404, 422 and 500
to the six sentinels; (4) `errors.Is`-style matching on the sentinel
succeeds for every classified error whose status has one. -/
theorem roundTrip_success_or_classified :
    (∀ (c : Client) (env : Env) (rsp : Response),
        (roundTrip c env).outcome = .ok rsp → isSuccess rsp.statusCode = true) ∧
    (∀ (c : Client) (env : Env) (i : Nat) (tsp : Response),
        (env.att i).transport = some tsp →
        (∀ a, seenUpdate c env i ≠ .retrySignal a) →
        statusRetry c i tsp.statusCode = false →
        isSuccess tsp.statusCode = false →
        loopFrom c env i =
          ⟨.apiErr ⟨env.reqid, tsp.statusCode,
              some ⟨headerGet tsp.header "Content-Type", tsp.body⟩,
              sentinelFor tsp.statusCode⟩, 1, []⟩) ∧
    (sentinelFor 400 = some .errBadRequest ∧
      sentinelFor 401 = some .errUnauthorized ∧
      sentinelFor 403 = some .errForbidden ∧
      sentinelFor 404 = some .errNotFound ∧
      sentinelFor 422 = some .errUnprocessableEntity ∧
      sentinelFor 500 = some .errInternalServerError) ∧
    (∀ (reqid : Int) (rsp : Response) (e : ApiError) (s : Sentinel),
        checkErr reqid rsp = some e → sentinelFor rsp.statusCode = some s →
        apiErrorIs e s = true) := by
  refine ⟨?_, ?_, by decide, ?_⟩
  · intro c env rsp h
    unfold roundTrip at h
    split_ifs at h
    · exact loopFrom_ok_success c env 0 rsp h
    · exact loopFrom_ok_success c env 0 rsp h
  · intro c env i tsp htr hno hs hf
    have he : checkErr env.reqid tsp =
        some ⟨env.reqid, tsp.statusCode,
          some ⟨headerGet tsp.header "Content-Type", tsp.body⟩,
          sentinelFor tsp.statusCode⟩ := by
      simp [checkErr, hf]
    exact loopFrom_classify c env i tsp _ htr hno hs he
  · intro reqid rsp e s he hsent
    unfold checkErr at he
    by_cases hsucc : isSuccess rsp.statusCode = true
    · simp [hsucc] at he
    · simp only [Bool.not_eq_true] at hsucc
      simp [hsucc] at he
      simp [apiErrorIs, ← he, hsent]

/-- C1 witness: a 404 on the first attempt with no retry configuration
is classified as an `*Error` carrying status 404, the body snapshot and
the `ErrNotFound` sentinel. -/
theorem roundTrip_success_or_classified_witness :
    loopFrom c1wClient c1wEnv 0 =
      ⟨.apiErr ⟨7, 404, some ⟨"application/json", "nope"⟩, some .errNotFound⟩,
        1, []⟩ := by
  have h := roundTrip_success_or_classified.2.1 c1wClient c1wEnv 0 rsp404w rfl
    (by intro a hcontra; simp [seenUpdate, c1wClient] at hcontra)
    (by decide) (by decide)
  exact h.trans (by decide)

/-- C1 counterexample: when the limiter forces retries until the budget
is exhausted, the call ends with the limiter's `RetryError` — not with
an `*Error` recording the final attempt's status — although the final
attempt's response (a 429) is non-2xx.  So "every final non-2xx
response is converted into an `*Error`" is false as stated
(`api.go` lines 359–361 return `rlerr` directly). -/
theorem roundTrip_retry_exhaustion_unclassified :
    (roundTrip c1cexClient c1cexEnv).outcome = .retrySignalErr ∧
    (c1cexEnv.att maxRetries).transport = some rsp429 ∧
    isSuccess rsp429.statusCode = false := by
  refine ⟨?_, rfl, by decide⟩
  have h3 : loopFrom c1cexClient c1cexEnv 3 = ⟨.retrySignalErr, 1, []⟩ :=
    loopFrom_retrySignal_exhausted c1cexClient c1cexEnv 3 rsp429 5 rfl rfl
      (by decide)
  have h2 : loopFrom c1cexClient c1cexEnv 2 =
      ⟨.retrySignalErr, 2, [.forcedRetryWait 2 5]⟩ := by
    rw [loopFrom_retrySignal_continue c1cexClient c1cexEnv 2 rsp429 5 rfl rfl
      (by decide) rfl, h3]
  have h1 : loopFrom c1cexClient c1cexEnv 1 =
      ⟨.retrySignalErr, 3, [.forcedRetryWait 1 5, .forcedRetryWait 2 5]⟩ := by
    rw [loopFrom_retrySignal_continue c1cexClient c1cexEnv 1 rsp429 5 rfl rfl
      (by decide) rfl, h2]
  have h0 : loopFrom c1cexClient c1cexEnv 0 =
      ⟨.retrySignalErr, 4,
        [.forcedRetryWait 0 5, .forcedRetryWait 1 5, .forcedRetryWait 2 5]⟩ := by
    rw [loopFrom_retrySignal_continue c1cexClient c1cexEnv 0 rsp429 5 rfl rfl
      (by decide) rfl, h1]
  have hrt : roundTrip c1cexClient c1cexEnv = loopFrom c1cexClient c1cexEnv 0 := by
    simp [roundTrip, c1cexClient, c1cexEnv]
  rw [hrt, h0]

/-! ## C2 — a single retry budget shared by both tiers -/

/-- C2: (1) a logical `RoundTrip` call performs at most
`maxRetries + 1 = 4` transport attempts; (2) every wait taken between
attempts — rate-limiter forced-retry wait or status backoff wait alike —
is taken at a value of the single shared attempt counter strictly below
`maxRetries = 3`; (3) a `RetrySignal` arriving once the counter has
reached the ceiling terminates the call with the limiter's error; (4) a
classifiable response at the ceiling terminates the call with the
classification error of that final attempt. -/
theorem roundTrip_shared_retry_budget :
    (∀ (c : Client) (env : Env), (roundTrip c env).attempts ≤ maxRetries + 1) ∧
    (∀ (c : Client) (env : Env), ∀ ev ∈ (roundTrip c env).trace,
        ev.attempt < maxRetries) ∧
    (∀ (c : Client) (env : Env) (tsp : Response) (after : Int),
        (env.att maxRetries).transport = some tsp →
        seenUpdate c env maxRetries = .retrySignal after →
        loopFrom c env maxRetries = ⟨.retrySignalErr, 1, []⟩) ∧
    (∀ (c : Client) (env : Env) (tsp : Response) (e : ApiError),
        (env.att maxRetries).transport = some tsp →
        (∀ a, seenUpdate c env maxRetries ≠ .retrySignal a) →
        checkErr env.reqid tsp = some e →
        loopFrom c env maxRetries = ⟨.apiErr e, 1, []⟩) := by
  refine ⟨?_, ?_, ?_, ?_⟩
  · intro c env
    unfold roundTrip
    split_ifs
    · simp
    · simp
    · simp
    · have := loopFrom_attempts_le c env 0
      simpa using this
    · have := loopFrom_attempts_le c env 0
      simpa using this
  · intro c env
    unfold roundTrip
    split_ifs
    · simp
    · simp
    · simp
    · exact loopFrom_trace_lt c env 0
    · exact loopFrom_trace_lt c env 0
  · intro c env tsp after htr hu
    exact loopFrom_retrySignal_exhausted c env maxRetries tsp after htr hu
      (Nat.le_refl _)
  · intro c env tsp e htr hno he
    refine loopFrom_classify c env maxRetries tsp e htr hno ?_ he
    simp [statusRetry]

/-- C2 witness: on the mixed-tier run the attempt bound holds and the
ceiling attempt is classified. -/
theorem roundTrip_shared_retry_budget_witness :
    (roundTrip c2wClient c2wEnv).attempts ≤ maxRetries + 1 ∧
    loopFrom c2wClient c2wEnv maxRetries =
      ⟨.apiErr ⟨13, 503, some ⟨"", "oops"⟩, none⟩, 1, []⟩ := by
  constructor
  · exact roundTrip_shared_retry_budget.1 c2wClient c2wEnv
  · exact roundTrip_shared_retry_budget.2.2.2 c2wClient c2wEnv rsp503w
      ⟨13, 503, some ⟨"", "oops"⟩, none⟩ rfl
      (by intro a hcontra; simp [seenUpdate, c2wClient, c2wEnv, maxRetries] at hcontra)
      (by decide)

/-! ## C3 — linearly progressive backoff -/

/-- C3: a response that is non-2xx, whose status is in the configured
retryable set, arriving on attempt `i < 3` with no `RetrySignal`
pending and no cancellation, makes the pipeline wait exactly
(configured backoff if positive, else the 3-minute default) × (i + 1)
and then re-send the same request: the call continues as the loop from
attempt `i + 1`, with that wait prepended to the trace. -/
theorem roundTrip_progressive_backoff (c : Client) (env : Env) (i : Nat)
    (tsp : Response) (rs : List Nat)
    (htr : (env.att i).transport = some tsp)
    (hno : ∀ a, seenUpdate c env i ≠ .retrySignal a)
    (hr : c.retry = some rs)
    (hf : isSuccess tsp.statusCode = false)
    (hm : tsp.statusCode ∈ rs)
    (hi : i < maxRetries)
    (hc : (env.att i).cancelAtBackoffWait = false) :
    loopFrom c env i =
      ⟨(loopFrom c env (i + 1)).outcome, (loopFrom c env (i + 1)).attempts + 1,
        .backoffWait i
            ((if c.backoff > 0 then c.backoff else backoffDefault) * (i + 1)) ::
          (loopFrom c env (i + 1)).trace⟩ := by
  have hs : statusRetry c i tsp.statusCode = true := by
    simp [statusRetry, hr, hf, hi, hm]
  have h := loopFrom_backoff_continue c env i tsp htr hno hs hc
  simpa [backoffDelay] using h

/-- C3 witness: the 503 on attempt 0 is retried after exactly
60 × 1 = 60 ns and the second attempt's 200 is returned. -/
theorem roundTrip_progressive_backoff_witness :
    loopFrom c3wClient c3wEnv 0 =
      ⟨.ok rsp200c3, 2, [.backoffWait 0 60]⟩ := by
  have h1 : loopFrom c3wClient c3wEnv 1 = ⟨.ok rsp200c3, 1, []⟩ :=
    loopFrom_ok_step c3wClient c3wEnv 1 rsp200c3 rfl rfl (by decide) (by decide)
  have h0 := roundTrip_progressive_backoff c3wClient c3wEnv 0 rsp503c3 [503] rfl
    (by intro a hcontra; simp [seenUpdate, c3wClient] at hcontra)
    rfl (by decide) (by decide) (by decide) rfl
  rw [h0, h1]
  decide

/-! ## C9 — cancellation wins at every suspension point -/

/-- C9: if the caller's context is done while the pipeline is suspended
at (1) the rate-limit gate wait, (2) a `RetrySignal` retry-after wait,
or (3) a status backoff wait, `RoundTrip` returns `context.Canceled`:
at the gate no transport attempt at all is made, and at either retry
wait the attempt already made is the last — no wait completes and
nothing is re-sent, so a canceled call is never retried. -/
theorem roundTrip_cancellation_aborts :
    (∀ (c : Client) (env : Env), c.limiter.isSome = true →
        env.authFails = false → env.nextFails = false →
        env.gateDelayPos = true → env.cancelAtGate = true →
        roundTrip c env = ⟨.canceled, 0, []⟩) ∧
    (∀ (c : Client) (env : Env) (i : Nat) (tsp : Response) (after : Int),
        (env.att i).transport = some tsp →
        seenUpdate c env i = .retrySignal after → i < maxRetries →
        (env.att i).cancelAtRetryWait = true →
        loopFrom c env i = ⟨.canceled, 1, []⟩) ∧
    (∀ (c : Client) (env : Env) (i : Nat) (tsp : Response) (rs : List Nat),
        (env.att i).transport = some tsp →
        (∀ a, seenUpdate c env i ≠ .retrySignal a) →
        c.retry = some rs → isSuccess tsp.statusCode = false →
        tsp.statusCode ∈ rs → i < maxRetries →
        (env.att i).cancelAtBackoffWait = true →
        loopFrom c env i = ⟨.canceled, 1, []⟩) := by
  refine ⟨?_, ?_, ?_⟩
  · intro c env hl ha hn hg hc
    simp [roundTrip, hl, ha, hn, hg, hc]
  · intro c env i tsp after htr hu hi hc
    exact loopFrom_retrySignal_canceled c env i tsp after htr hu hi hc
  · intro c env i tsp rs htr hno hr hf hm hi hc
    have hs : statusRetry c i tsp.statusCode = true := by
      simp [statusRetry, hr, hf, hi, hm]
    exact loopFrom_backoff_canceled c env i tsp htr hno hs hc

/-- C9 witness: cancellation at the gate aborts with no attempt;
cancellation at either retry wait aborts after the single attempt
already made. -/
theorem roundTrip_cancellation_aborts_witness :
    roundTrip c9wClient c9wEnvGate = ⟨.canceled, 0, []⟩ ∧
    loopFrom c9wClient c9wEnvRetry 0 = ⟨.canceled, 1, []⟩ ∧
    loopFrom c9wClient c9wEnvBackoff 0 = ⟨.canceled, 1, []⟩ := by
  refine ⟨?_, ?_, ?_⟩
  · exact roundTrip_cancellation_aborts.1 c9wClient c9wEnvGate rfl rfl rfl rfl rfl
  · exact roundTrip_cancellation_aborts.2.1 c9wClient c9wEnvRetry 0 rsp503w 9
      rfl rfl (by decide) rfl
  · exact roundTrip_cancellation_aborts.2.2 c9wClient c9wEnvBackoff 0 rsp503w
      [503] rfl
      (by intro a hcontra; simp [seenUpdate, c9wClient, c9wEnvBackoff] at hcontra)
      rfl (by decide) (by decide) (by decide) rfl

/-- C6 witness: three results arriving in completion order 2, 0, 1 are
returned as the responses for indices 0, 1, 2. -/
theorem collect_restores_request_order_witness :
    collect
        [⟨2, ⟨202, [], "c"⟩⟩, ⟨0, ⟨200, [], "a"⟩⟩, ⟨1, ⟨201, [], "b"⟩⟩]
        .closed none =
      .ok ((List.range 3).map fun i => (⟨200 + i, [], String.mk [Char.ofNat (97 + i)]⟩ : Response)) := by
  exact collect_restores_request_order 3
    (fun i => ⟨200 + i, [], String.mk [Char.ofNat (97 + i)]⟩)
    [⟨2, ⟨202, [], "c"⟩⟩, ⟨0, ⟨200, [], "a"⟩⟩, ⟨1, ⟨201, [], "b"⟩⟩]
    (by decide)

end ApiClient
